import Mathlib

/-!
Verification of the ebot email pipeline.

This file gives a shallow embedding of the pipeline of the repository
(classifier parsing, the confidence gate, the weighted similarity search with
deduplication, the specialized job/candidate store, the bounded retry loops,
the readiness poll and the per-message orchestration) and proves theorems
checking the specification against it.

Modelling conventions: Python strings are Lean strings, and the Python string
primitives the source uses (str.strip, str.lower, str.split, float parsing)
are embedded as structural functions over the underlying character lists so
that every definition evaluates inside the kernel.  Python floats are
modelled as rationals.  The remote collaborators (embedding oracle, chat
oracle, SMTP transport, the Pinecone transport and its similarity ranking)
are parameters supplied through an environment record; the Pinecone index
itself is modelled as explicit state, a list of namespaced records.
-/

namespace EBot

/-! ### Python string primitives -/

/-- Characters kept by Python str.strip with no argument: whitespace is
dropped from both ends. -/
def stripChars (cs : List Char) : List Char :=
  ((cs.dropWhile Char.isWhitespace).reverse.dropWhile Char.isWhitespace).reverse

/-- Embedding of Python str.strip. -/
def pyStrip (s : String) : String := ⟨stripChars s.data⟩

/-- Lower-casing of one character, as Python str.lower acts on ASCII input. -/
def lowerChar (c : Char) : Char :=
  if 'A' ≤ c ∧ c ≤ 'Z' then Char.ofNat (c.toNat + 32) else c

/-- Embedding of Python str.lower (ASCII fragment). -/
def pyLower (s : String) : String := ⟨s.data.map lowerChar⟩

/-- Embedding of Python str.split with a one-character separator. -/
def splitOnChar (c : Char) : List Char → List (List Char)
  | [] => [[]]
  | a :: rest =>
    let r := splitOnChar c rest
    if a = c then [] :: r
    else
      match r with
      | [] => [[a]]
      | g :: gs => (a :: g) :: gs

/-- Numeric value of a digit string (callers check every character is a
digit). -/
def digitsVal (cs : List Char) : Nat :=
  cs.foldl (fun a c => a * 10 + (c.toNat - 48)) 0

/-- Embedding of Python float(...) on the literal shapes this pipeline can
meet: optional sign followed by a plain decimal numeral, with surrounding
whitespace accepted as float() accepts it.  Exponents, infinities and NaN are
not modelled; on any other input the parser fails like float() raising
ValueError. -/
def parseFloat? (s : String) : Option Rat :=
  let cs := stripChars s.data
  let signBody : Int × List Char :=
    match cs with
    | '-' :: rest => (-1, rest)
    | '+' :: rest => (1, rest)
    | l => (1, l)
  match splitOnChar '.' signBody.2 with
  | [w] =>
    if w ≠ [] ∧ w.all Char.isDigit then some (mkRat (signBody.1 * digitsVal w) 1)
    else none
  | [w, f] =>
    if (w ≠ [] ∨ f ≠ []) ∧ w.all Char.isDigit ∧ f.all Char.isDigit then
      some (mkRat (signBody.1 * (digitsVal w * 10 ^ f.length + digitsVal f)) (10 ^ f.length))
    else none
  | _ => none

/-! ### Classifier (classifier.py) -/

/-- The categories of classifier.EmailCategory. -/
inductive EmailCategory
  | JOB
  | CANDIDATE
  | OTHER
deriving DecidableEq

/-- Embedding of the Python enum lookup EmailCategory(value): the value must
equal one of the enum value strings exactly. -/
def emailCategory? (s : String) : Option EmailCategory :=
  if s = "job" then some .JOB
  else if s = "candidate" then some .CANDIDATE
  else if s = "other" then some .OTHER
  else none

/-- The distinct ways the result handling of classifier.classify_email raises
ValueError: tuple unpacking of result.split, the EmailCategory enum lookup,
and float(confidence). -/
inductive ClassifyError
  | unpackError
  | categoryError
  | confidenceError
deriving DecidableEq

/-- Embedding of classifier.classify_email lines 43 to 45: strip and
lower-case the oracle completion, split it on the colon, unpack exactly two
parts, look the category up in the enum and parse the confidence as a
float. -/
def classify_email_parse (resp : String) : Except ClassifyError (EmailCategory × Rat) :=
  let result := pyLower (pyStrip resp)
  match splitOnChar ':' result.data with
  | [cat, conf] =>
    match emailCategory? ⟨cat⟩ with
    | none => .error .categoryError
    | some c =>
      match parseFloat? ⟨conf⟩ with
      | none => .error .confidenceError
      | some q => .ok (c, q)
  | _ => .error .unpackError

/-! ### Configuration (config.py) -/

/-- config.WeightedSearchConfig.SUBJECT_WEIGHT, 0.4. -/
def SUBJECT_WEIGHT : Rat := mkRat 4 10

/-- config.WeightedSearchConfig.CONTENT_WEIGHT, 0.6. -/
def CONTENT_WEIGHT : Rat := mkRat 6 10

/-- config.WeightedSearchConfig.TOP_K. -/
def TOP_K : Nat := 3

/-- The literal 0.7 of the confidence gates in
mailing_bot._process_single_email and initialize_bot.process_email_content. -/
def CONFIDENCE_THRESHOLD : Rat := mkRat 7 10

/-! ### Combined embedding (vector_store.py, mailing_bot.py) -/

/-- Embedding of the combined-embedding list comprehension shared by
vector_store.weighted_similarity_search, mailing_bot._process_single_email and
initialize_bot.process_email_content: the value s * subject_weight plus
c * content_weight over zip(subject_embedding, content_embedding). -/
def combineEmbeddings (ws wc : Rat) (subjectVec contentVec : List Rat) : List Rat :=
  (subjectVec.zip contentVec).map (fun p => p.1 * ws + p.2 * wc)

/-! ### Weighted similarity search deduplication (vector_store.py) -/

/-- The metadata stored with every email record by vector_store.store_email. -/
structure EmailMeta where
  subject : String
  content : String
  thread_id : String
  sender : String
deriving DecidableEq

/-- One match of the index query result: score plus metadata. -/
structure QueryMatch where
  score : Rat
  metadata : EmailMeta
deriving DecidableEq

/-- Embedding of the deduplication loop of
vector_store.weighted_similarity_search: walk the matches in order, skip any
match whose stripped content is empty or whose content hash was already seen,
append the rest, and stop as soon as k results are collected (the Python loop
appends first and then breaks when the length reaches TOP_K, so with k below
one a single kept match is still returned).  The Python hash builtin is the
parameter h. -/
def dedupMatches (h : String → Int) (k : Nat) (seen : List Int) :
    List QueryMatch → List QueryMatch
  | [] => []
  | m :: rest =>
    let c := pyStrip m.metadata.content
    if h c ∉ seen ∧ c ≠ "" then
      if k ≤ 1 then [m]
      else m :: dedupMatches h (k - 1) (h c :: seen) rest
    else dedupMatches h k seen rest

/-- Embedding of vector_store.weighted_similarity_search after the remote
query: deduplicate the returned matches and project their metadata.  The
query itself is a remote call; its result list is the argument. -/
def weighted_similarity_search (h : String → Int) (results : List QueryMatch) :
    List EmailMeta :=
  (dedupMatches h TOP_K [] results).map (fun m => m.metadata)

/-! ### Bounded retry (vector_store.store_email) -/

/-- The retry_delay of vector_store.store_email, in seconds. -/
def RETRY_DELAY : Nat := 2

/-- Embedding of the bounded retry loop of vector_store.store_email.  The
fuel is the number of attempts still allowed (max_retries at the start) and
outcome n is what the nth upsert attempt does.  The result records the
attempt indices tried, the total seconds slept between attempts, and the
final outcome: ok for an early return, error when the last attempt
re-raises. -/
def retryLoop (outcome : Nat → Except String Unit) (attempt : Nat) :
    Nat → List Nat × Nat × Except String Unit
  | 0 => ([], 0, .ok ())
  | fuel + 1 =>
    match outcome attempt with
    | .ok _ => ([attempt], 0, .ok ())
    | .error e =>
      if fuel = 0 then ([attempt], 0, .error e)
      else
        let r := retryLoop outcome (attempt + 1) fuel
        (attempt :: r.1, RETRY_DELAY + r.2.1, r.2.2)

/-- The control flow of vector_store.store_email: at most three attempts with
a fixed delay between them. -/
def store_email_run (outcome : Nat → Except String Unit) :
    List Nat × Nat × Except String Unit :=
  retryLoop outcome 0 3

/-! ### Index readiness poll (vector_store.py, specialized_vector_store.py) -/

/-- The outcome of the index-creation readiness wait. -/
inductive InitResult
  | success
  | timedOut
deriving DecidableEq

/-- Embedding of the readiness poll shared verbatim by
vector_store._init_index and specialized_vector_store._init_index: while the
elapsed time is below the timeout, poll the index status (ready t is the
answer of the poll at second t; a describe call that raises is caught and
counts as not ready) and sleep one second; leaving the loop without a break
runs the else clause, which raises TimeoutError, modelled as timedOut. -/
def pollLoop (ready : Nat → Bool) (t : Nat) : Nat → InitResult
  | 0 => .timedOut
  | remaining + 1 => if ready t then .success else pollLoop ready (t + 1) remaining

/-- The readiness wait with the 60-second timeout of the source. -/
def wait_for_index_ready (ready : Nat → Bool) : InitResult :=
  pollLoop ready 0 60

/-! ### The specialized job/candidate store (specialized_vector_store.py) -/

/-- String-keyed metadata mapping, as sent to the index. -/
abbrev Metadata := List (String × String)

/-- One vector record as sent to index.upsert. -/
structure UpsertVector where
  id : String
  values : List Rat
  metadata : Metadata
deriving DecidableEq

/-- The Pinecone index modelled as explicit state: the live records keyed by
namespace and id. -/
structure IndexState where
  records : List (String × UpsertVector)
deriving DecidableEq

/-- The freshly created index. -/
def emptyIndex : IndexState := ⟨[]⟩

/-- Overwrite-by-id write: the new record replaces any record with the same
namespace and id. -/
def upsert (s : IndexState) (ns : String) (v : UpsertVector) : IndexState :=
  ⟨(ns, v) :: s.records.filter (fun p => !(p.1 == ns && p.2.id == v.id))⟩

/-- The records of one namespace. -/
def namespaceRecords (s : IndexState) (ns : String) : List UpsertVector :=
  (s.records.filter (fun p => p.1 == ns)).map (fun p => p.2)

/-- index.query: rank the records of the namespace by the remote similarity
score against the query vector, descending, and return the first topK.  The
scoring belongs to the remote index and is a parameter. -/
def queryIndex (score : List Rat → List Rat → Rat) (s : IndexState) (ns : String)
    (vec : List Rat) (topK : Nat) : List UpsertVector :=
  (List.insertionSort (fun a b => score vec b.values ≤ score vec a.values)
    (namespaceRecords s ns)).take topK

/-- The job dict of mailing_bot._handle_job_email and
initialize_bot.process_email_content: id, title, description, company,
requirements. -/
structure JobData where
  id : String
  title : String
  description : String
  company : String
  requirements : String
deriving DecidableEq

/-- The candidate dict of mailing_bot._handle_candidate_email and
initialize_bot.process_email_content: id, name, skills, experience,
background. -/
structure CandidateData where
  id : String
  name : String
  skills : String
  experience : String
  background : String
deriving DecidableEq

/-- The synthetic descriptive text embedded by store_job. -/
def jobText (j : JobData) : String :=
  "\n        Title: " ++ j.title ++ "\n        Company: " ++ j.company ++
    "\n        Requirements: " ++ j.requirements ++ "\n        Description: " ++
    j.description ++ "\n        "

/-- The synthetic descriptive text embedded by store_candidate. -/
def candidateText (c : CandidateData) : String :=
  "\n        Name: " ++ c.name ++ "\n        Skills: " ++ c.skills ++
    "\n        Experience: " ++ c.experience ++ "\n        Background: " ++
    c.background ++ "\n        "

/-- The metadata written by store_job: the job fields plus type job. -/
def jobMetadata (j : JobData) : Metadata :=
  [("id", j.id), ("title", j.title), ("description", j.description),
   ("company", j.company), ("requirements", j.requirements), ("type", "job")]

/-- The metadata written by store_candidate: the candidate fields plus type
candidate. -/
def candidateMetadata (c : CandidateData) : Metadata :=
  [("id", c.id), ("name", c.name), ("skills", c.skills),
   ("experience", c.experience), ("background", c.background),
   ("type", "candidate")]

/-- The namespace and record that specialized_vector_store.store_job upserts:
namespace jobs, id job_ followed by the job id. -/
def storeJobRequest (embed : String → List Rat) (j : JobData) : String × UpsertVector :=
  ("jobs", ⟨"job_" ++ j.id, embed (jobText j), jobMetadata j⟩)

/-- The namespace and record that specialized_vector_store.store_candidate
upserts: namespace candidates, id candidate_ followed by the candidate id. -/
def storeCandidateRequest (embed : String → List Rat) (c : CandidateData) :
    String × UpsertVector :=
  ("candidates", ⟨"candidate_" ++ c.id, embed (candidateText c), candidateMetadata c⟩)

/-- specialized_vector_store.store_job: embed the synthetic text and upsert
the record. -/
def store_job (embed : String → List Rat) (s : IndexState) (j : JobData) : IndexState :=
  upsert s (storeJobRequest embed j).1 (storeJobRequest embed j).2

/-- specialized_vector_store.store_candidate: embed the synthetic text and
upsert the record. -/
def store_candidate (embed : String → List Rat) (s : IndexState)
    (c : CandidateData) : IndexState :=
  upsert s (storeCandidateRequest embed c).1 (storeCandidateRequest embed c).2

/-- specialized_vector_store.find_matching_candidates: embed the free text,
query namespace candidates, return the raw metadata of the matches. -/
def find_matching_candidates (embed : String → List Rat)
    (score : List Rat → List Rat → Rat) (s : IndexState) (jobDescription : String)
    (topK : Nat) : List Metadata :=
  (queryIndex score s "candidates" (embed jobDescription) topK).map (fun r => r.metadata)

/-- specialized_vector_store.find_matching_jobs: embed the free text, query
namespace jobs, return the raw metadata of the matches. -/
def find_matching_jobs (embed : String → List Rat)
    (score : List Rat → List Rat → Rat) (s : IndexState) (candidateProfile : String)
    (topK : Nat) : List Metadata :=
  (queryIndex score s "jobs" (embed candidateProfile) topK).map (fun r => r.metadata)

/-! ### Orchestrator (mailing_bot.py, email_handler.py, initialize_bot.py) -/

/-- email_handler.EmailData. -/
structure EmailData where
  subject : String
  content : String
  thread_id : Option String
  references : List String
  sender : String
  message_id : String
deriving DecidableEq

/-- The exceptions a message-processing step can raise: a failed remote call,
or one of the ValueError cases of classification parsing. -/
inductive BotError
  | service (msg : String)
  | parse (e : ClassifyError)
deriving DecidableEq

/-- email_handler.send_reply: build the reply message and try the SMTP send;
a transport exception is caught and only printed, so the function always
returns normally to its caller.  The Boolean says whether the send actually
happened. -/
def send_reply (smtpOutcome : Except String Unit) : Bool :=
  match smtpOutcome with
  | .ok _ => true
  | .error _ => false

/-- The outcome of processing one message to the end: the effective category,
the generated reply and whether the SMTP send succeeded. -/
structure ProcessReport where
  category : EmailCategory
  reply : String
  delivered : Bool
deriving DecidableEq

/-- The remote collaborators of one processing cycle, as functions: the
embedding oracle (which can fail), the per-attempt outcome of the store_email
upsert given the vector written, the chat completion of classify_email, the
Python hash builtin, the main index query, the embedding oracle and
similarity ranking of the specialized store, the reply generation of
analyze_similar_emails, and the SMTP send. -/
structure BotEnv where
  embed : String → Except BotError (List Rat)
  upsertAttempt : EmailData → List Rat → Nat → Except String Unit
  classifyResp : EmailData → Except BotError String
  contentHash : String → Int
  queryMain : List Rat → List QueryMatch
  specEmbed : String → List Rat
  score : List Rat → List Rat → Rat
  analyzeReply : EmailData → List EmailMeta → Except BotError String
  smtpSend : EmailData → String → Except String Unit

/-- The job dict built from an email by mailing_bot._handle_job_email. -/
def jobDataOf (e : EmailData) : JobData :=
  ⟨e.message_id, e.subject, e.content, "From Email", e.content⟩

/-- The candidate dict built from an email by
mailing_bot._handle_candidate_email. -/
def candidateDataOf (e : EmailData) : CandidateData :=
  ⟨e.message_id, e.sender, e.content, "From Email", e.content⟩

/-- Python dict lookup metadata[key]; the records the formatters read were
written with all the keys they use. -/
def metaField (m : Metadata) (k : String) : String :=
  match m.find? (fun p => p.1 == k) with
  | some p => p.2
  | none => ""

/-- Python slice text[:n]. -/
def pyTake (s : String) (n : Nat) : String := ⟨s.data.take n⟩

/-- The listing reply built by mailing_bot._handle_job_email. -/
def jobReplyText (cands : List Metadata) : String :=
  if cands.isEmpty then
    "Thank you for your job posting. We\x27ll keep your requirements in mind and notify you when we find matching candidates."
  else
    (List.enumFrom 1 cands).foldl
      (fun acc p =>
        acc ++ toString p.1 ++ ". " ++ metaField p.2 "name" ++ "\n   Skills: " ++
          metaField p.2 "skills" ++ "\n   Experience: " ++
          metaField p.2 "experience" ++ "\n\n")
      "Thank you for your job posting. Here are our top matching candidates:\n\n"

/-- The listing reply built by mailing_bot._handle_candidate_email. -/
def candidateReplyText (jobs : List Metadata) : String :=
  if jobs.isEmpty then
    "Thank you for your profile. We\x27ll keep your details and notify you when relevant positions become available."
  else
    (List.enumFrom 1 jobs).foldl
      (fun acc p =>
        acc ++ toString p.1 ++ ". " ++ metaField p.2 "title" ++ "\n   Company: " ++
          metaField p.2 "company" ++ "\n   Requirements: " ++
          pyTake (metaField p.2 "requirements") 200 ++ "...\n\n")
      "Thank you for your interest. Here are some matching job opportunities:\n\n"

/-- mailing_bot._handle_job_email: store the job record, query the matching
candidates from the updated store, build the listing reply. -/
def handleJob (env : BotEnv) (s : IndexState) (e : EmailData) : IndexState × String :=
  let s2 := store_job env.specEmbed s (jobDataOf e)
  let matchingCandidates := find_matching_candidates env.specEmbed env.score s2 e.content 3
  (s2, jobReplyText matchingCandidates)

/-- mailing_bot._handle_candidate_email: store the candidate record, query the
matching jobs from the updated store, build the listing reply. -/
def handleCandidate (env : BotEnv) (s : IndexState) (e : EmailData) :
    IndexState × String :=
  let s2 := store_candidate env.specEmbed s (candidateDataOf e)
  let matchingJobs := find_matching_jobs env.specEmbed env.score s2 e.content 3
  (s2, candidateReplyText matchingJobs)

/-- mailing_bot._handle_other_email: re-embed both fields, run the weighted
similarity search over the main index and let the classifier generate a
context-grounded reply.  The specialized store is untouched. -/
def handleOther (env : BotEnv) (s : IndexState) (e : EmailData) :
    IndexState × Except BotError String :=
  match env.embed e.subject with
  | .error err => (s, .error err)
  | .ok sv =>
    match env.embed e.content with
    | .error err => (s, .error err)
    | .ok cv =>
      let similar := weighted_similarity_search env.contentHash
        (env.queryMain (combineEmbeddings SUBJECT_WEIGHT CONTENT_WEIGHT sv cv))
      (s, env.analyzeReply e similar)

/-- Steps 4 and 5 of mailing_bot._process_single_email: branch on the
effective category, then send the reply. -/
def dispatchCategory (env : BotEnv) (s : IndexState) (e : EmailData) :
    EmailCategory → IndexState × Except BotError ProcessReport
  | .JOB =>
    let r := handleJob env s e
    (r.1, .ok ⟨.JOB, r.2, send_reply (env.smtpSend e r.2)⟩)
  | .CANDIDATE =>
    let r := handleCandidate env s e
    (r.1, .ok ⟨.CANDIDATE, r.2, send_reply (env.smtpSend e r.2)⟩)
  | .OTHER =>
    match handleOther env s e with
    | (s2, .error err) => (s2, .error err)
    | (s2, .ok reply) => (s2, .ok ⟨.OTHER, reply, send_reply (env.smtpSend e reply)⟩)

/-- classifier.classify_email as the orchestrator sees it: the oracle call can
itself fail, and its completion is parsed; either failure raises. -/
def classifyStep (env : BotEnv) (e : EmailData) : Except BotError (EmailCategory × Rat) :=
  match env.classifyResp e with
  | .error err => .error err
  | .ok resp =>
    match classify_email_parse resp with
    | .error ce => .error (.parse ce)
    | .ok cr => .ok cr

/-- mailing_bot._process_single_email: embed both fields, combine them with
the configured weights, store the email with bounded retries, classify, gate
the category on confidence 0.7, branch and send.  Any exception of any step
propagates as the error of this message; the specialized store state is
threaded through and an exception leaves it untouched. -/
def processSingleEmail (env : BotEnv) (s : IndexState) (e : EmailData) :
    IndexState × Except BotError ProcessReport :=
  match env.embed e.subject with
  | .error err => (s, .error err)
  | .ok subjectEmbedding =>
    match env.embed e.content with
    | .error err => (s, .error err)
    | .ok contentEmbedding =>
      let combined :=
        combineEmbeddings SUBJECT_WEIGHT CONTENT_WEIGHT subjectEmbedding contentEmbedding
      match (store_email_run (env.upsertAttempt e combined)).2.2 with
      | .error msg => (s, .error (.service msg))
      | .ok _ =>
        match classifyStep env e with
        | .error err => (s, .error err)
        | .ok (rawCategory, confidence) =>
          dispatchCategory env s e
            (if confidence < CONFIDENCE_THRESHOLD then .OTHER else rawCategory)

/-- mailing_bot.process_new_emails: the per-message try/except; a failure is
logged and the loop continues with the next message.  Each entry of the
result list is some report (processed) or none (skipped). -/
def processNewEmails (env : BotEnv) : IndexState → List EmailData →
    IndexState × List (Option ProcessReport)
  | s, [] => (s, [])
  | s, e :: rest =>
    let r := processSingleEmail env s e
    let t := processNewEmails env r.1 rest
    (t.1, r.2.toOption :: t.2)

/-- The store decision of initialize_bot.process_email_content: the
low-confidence gate returns before any store, otherwise the JOB and CANDIDATE
branches choose the store.  The result is (job stored, candidate stored). -/
def process_email_content_stores (category : String) (confidence : Rat) : Bool × Bool :=
  if confidence < CONFIDENCE_THRESHOLD then (false, false)
  else if category = "JOB" then (true, false)
  else if category = "CANDIDATE" then (false, true)
  else (false, false)

/-! ### Concrete fixtures used by the witness theorems -/

/-- A concrete fetched email. -/
def demoEmail : EmailData := ⟨"Hello", "Body text", none, [], "a@b.example", "m1"⟩

/-- A second concrete fetched email. -/
def goodEmail : EmailData := ⟨"Hi", "More text", none, [], "c@d.example", "m2"⟩

/-- An environment whose remote calls all succeed and whose classification
completion parses as other with confidence 0.9. -/
def baseEnv : BotEnv :=
  ⟨fun _ => .ok [1, 0],
   fun _ _ _ => .ok (),
   fun _ => .ok "other:0.9",
   fun s => (s.data.length : Int),
   fun _ => [],
   fun _ => [1, 0],
   fun _ _ => 0,
   fun _ _ => .ok "a reply",
   fun _ _ => .ok ()⟩

/-- Like baseEnv but the classification oracle answers something that does not
parse as category:confidence. -/
def unparseableEnv : BotEnv :=
  ⟨fun _ => .ok [1, 0],
   fun _ _ _ => .ok (),
   fun _ => .ok "no delimiter here",
   fun s => (s.data.length : Int),
   fun _ => [],
   fun _ => [1, 0],
   fun _ _ => 0,
   fun _ _ => .ok "a reply",
   fun _ _ => .ok ()⟩

/-- Like baseEnv but the classification parses as job with confidence 0.5,
below the gate. -/
def gateEnv : BotEnv :=
  ⟨fun _ => .ok [1, 0],
   fun _ _ _ => .ok (),
   fun _ => .ok "job:0.5",
   fun s => (s.data.length : Int),
   fun _ => [],
   fun _ => [1, 0],
   fun _ _ => 0,
   fun _ _ => .ok "a reply",
   fun _ _ => .ok ()⟩

/-- Like baseEnv but every SMTP send fails. -/
def smtpFailEnv : BotEnv :=
  ⟨fun _ => .ok [1, 0],
   fun _ _ _ => .ok (),
   fun _ => .ok "other:0.9",
   fun s => (s.data.length : Int),
   fun _ => [],
   fun _ => [1, 0],
   fun _ _ => 0,
   fun _ _ => .ok "a reply",
   fun _ _ => .error "smtp down"⟩

/-- The hash used by the search witness: character count. -/
def wsHash : String → Int := fun s => (s.data.length : Int)

/-- Concrete index query results: six matches in descending score order, with
a duplicated content, a whitespace-only content and three distinct others. -/
def wsResults : List QueryMatch :=
  [⟨mkRat 9 10, ⟨"s1", "alpha content", "", "x@y"⟩⟩,
   ⟨mkRat 8 10, ⟨"s2", "alpha content", "", "x@y"⟩⟩,
   ⟨mkRat 7 10, ⟨"s3", "   ", "", "x@y"⟩⟩,
   ⟨mkRat 6 10, ⟨"s4", "beta", "", "x@y"⟩⟩,
   ⟨mkRat 5 10, ⟨"s5", "gamma!", "", "x@y"⟩⟩,
   ⟨mkRat 4 10, ⟨"s6", "delta22", "", "x@y"⟩⟩]

/-- A concrete upsert outcome: the first attempt fails, later attempts
succeed. -/
def flakyOutcome : Nat → Except String Unit :=
  fun n => if n = 0 then .error "transient" else .ok ()

/-- A readiness oracle that never reports ready. -/
def neverReady : Nat → Bool := fun _ => false

/-- A readiness oracle that reports ready on the third poll. -/
def readyAt2 : Nat → Bool := fun n => n == 2

/-- A concrete job record. -/
def demoJob : JobData := ⟨"42", "Engineer", "Build things", "Acme", "Go"⟩

/-- A concrete candidate record. -/
def demoCandidate : CandidateData := ⟨"7", "Sam", "Go and SQL", "5y", "Systems"⟩

/-- A trivial embedding oracle for the store fixtures. -/
def zeroEmbed : String → List Rat := fun _ => []

/-! ## Lemmas about the deduplication loop -/

theorem dedupMatches_sublist (h : String → Int) :
    ∀ (l : List QueryMatch) (k : Nat) (seen : List Int),
      (dedupMatches h k seen l).Sublist l := by
  intro l
  induction l with
  | nil => intro k seen; simp [dedupMatches]
  | cons m rest ih =>
    intro k seen
    simp only [dedupMatches]
    split
    · split
      · exact (List.nil_sublist rest).cons₂ m
      · exact (ih (k - 1) _).cons₂ m
    · exact (ih k seen).cons m

theorem dedupMatches_length (h : String → Int) :
    ∀ (l : List QueryMatch) (k : Nat) (seen : List Int), 1 ≤ k →
      (dedupMatches h k seen l).length ≤ k := by
  intro l
  induction l with
  | nil => intro k seen hk; simp [dedupMatches]
  | cons m rest ih =>
    intro k seen hk
    simp only [dedupMatches]
    split
    · split
      case isTrue hk1 => simpa using hk
      case isFalse hk1 =>
        have h2 := ih (k - 1) (h (pyStrip m.metadata.content) :: seen) (by omega)
        simp only [List.length_cons]
        omega
    · exact ih k seen hk

theorem dedupMatches_mem (h : String → Int) :
    ∀ (l : List QueryMatch) (k : Nat) (seen : List Int) (m : QueryMatch),
      m ∈ dedupMatches h k seen l →
        h (pyStrip m.metadata.content) ∉ seen ∧ pyStrip m.metadata.content ≠ "" := by
  intro l
  induction l with
  | nil => intro k seen m hm; simp [dedupMatches] at hm
  | cons a rest ih =>
    intro k seen m hm
    simp only [dedupMatches] at hm
    split at hm
    case isTrue hcond =>
      split at hm
      · simp only [List.mem_singleton] at hm
        subst hm
        exact hcond
      · rcases List.mem_cons.mp hm with rfl | hm2
        · exact hcond
        · have h2 := ih (k - 1) _ m hm2
          exact ⟨fun hmem => h2.1 (List.mem_cons_of_mem _ hmem), h2.2⟩
    case isFalse hcond => exact ih k seen m hm

theorem dedupMatches_pairwise (h : String → Int) :
    ∀ (l : List QueryMatch) (k : Nat) (seen : List Int),
      (dedupMatches h k seen l).Pairwise
        (fun a b => h (pyStrip a.metadata.content) ≠ h (pyStrip b.metadata.content)) := by
  intro l
  induction l with
  | nil => intro k seen; simp [dedupMatches]
  | cons a rest ih =>
    intro k seen
    simp only [dedupMatches]
    split
    case isTrue hcond =>
      split
      · simp
      · refine List.Pairwise.cons ?_ (ih (k - 1) _)
        intro b hb heq
        have h2 := dedupMatches_mem h rest (k - 1) _ b hb
        exact h2.1 (heq ▸ List.mem_cons_self _ _)
    case isFalse hcond => exact ih k seen

/-- C1: weighted_similarity_search returns at most TOP_K metadata mappings,
never two with equal content (equality through the content hash), excludes
every match whose content is empty, is the metadata projection of a sublist
of the index result (so the descending score order of the query is
preserved), and returns the empty list on an empty result set. -/
theorem C1_weighted_search_correct (h : String → Int) (results : List QueryMatch)
    (hsorted : results.Pairwise (fun a b => b.score ≤ a.score)) :
    (weighted_similarity_search h results).length ≤ TOP_K
    ∧ (weighted_similarity_search h results).Pairwise (fun a b => a.content ≠ b.content)
    ∧ (∀ meta ∈ weighted_similarity_search h results,
        meta.content ≠ "" ∧ pyStrip meta.content ≠ "")
    ∧ (∃ kept : List QueryMatch, kept.Sublist results
        ∧ kept.Pairwise (fun a b => b.score ≤ a.score)
        ∧ weighted_similarity_search h results = kept.map (fun m => m.metadata))
    ∧ weighted_similarity_search h [] = [] := by
  refine ⟨?_, ?_, ?_,
    ⟨dedupMatches h TOP_K [] results, dedupMatches_sublist h results TOP_K [],
      List.Pairwise.sublist (dedupMatches_sublist h results TOP_K []) hsorted, rfl⟩, rfl⟩
  · have := dedupMatches_length h results TOP_K [] (by decide)
    simpa [weighted_similarity_search] using this
  · have hpw := dedupMatches_pairwise h results TOP_K []
    unfold weighted_similarity_search
    rw [List.pairwise_map]
    refine hpw.imp ?_
    intro a b hne hc
    exact hne (by rw [hc])
  · intro meta hmeta
    unfold weighted_similarity_search at hmeta
    rcases List.mem_map.mp hmeta with ⟨m, hm, rfl⟩
    have h2 := dedupMatches_mem h results TOP_K [] m hm
    refine ⟨?_, h2.2⟩
    intro hempty
    exact h2.2 (by rw [hempty]; rfl)

/-- Witness for C1 at a concrete result list: six sorted candidates collapse
to at most TOP_K deduplicated results, and the empty query result gives the
empty output. -/
theorem C1_witness :
    (weighted_similarity_search wsHash wsResults).length ≤ TOP_K
    ∧ weighted_similarity_search wsHash [] = [] := by
  have t := C1_weighted_search_correct wsHash wsResults (by decide)
  exact ⟨t.1, t.2.2.2.2⟩

/-! ## Lemmas about the combined embedding -/

theorem weights_sum_one : SUBJECT_WEIGHT + CONTENT_WEIGHT = 1 := by
  rw [SUBJECT_WEIGHT, CONTENT_WEIGHT, Rat.mkRat_eq_divInt, Rat.mkRat_eq_divInt,
    Rat.divInt_eq_div, Rat.divInt_eq_div]
  norm_num

theorem combineEmbeddings_getD (ws wc : Rat) :
    ∀ (s c : List Rat) (i : Nat), i < s.length → i < c.length →
      (combineEmbeddings ws wc s c).getD i 0 = s.getD i 0 * ws + c.getD i 0 * wc := by
  intro s
  induction s with
  | nil => intro c i hi _; simp at hi
  | cons a s ih =>
    intro c i hi hic
    cases c with
    | nil => simp at hic
    | cons b c =>
      cases i with
      | zero => simp [combineEmbeddings]
      | succ i =>
        have h2 := ih c i (by simpa using hi) (by simpa using hic)
        simpa [combineEmbeddings] using h2

/-- C6: for vectors of equal dimension and any weight pair summing to one,
the combined embedding is the pointwise weighted sum, its dimension equals
the input dimension, and no renormalization happens (the entries are exactly
the weighted sums). -/
theorem C6_combined_embedding (ws wc : Rat) (svec cvec : List Rat)
    (_hw : ws + wc = 1) (hl : svec.length = cvec.length) :
    (combineEmbeddings ws wc svec cvec).length = svec.length
    ∧ ∀ i, i < svec.length →
        (combineEmbeddings ws wc svec cvec).getD i 0
          = ws * svec.getD i 0 + wc * cvec.getD i 0 := by
  constructor
  · simp [combineEmbeddings, hl]
  · intro i hi
    rw [combineEmbeddings_getD ws wc svec cvec i hi (hl ▸ hi),
      mul_comm (svec.getD i 0) ws, mul_comm (cvec.getD i 0) wc]

/-- Witness for C6 at the configured weights 0.4 and 0.6 and concrete
two-dimensional vectors. -/
theorem C6_witness :
    (combineEmbeddings SUBJECT_WEIGHT CONTENT_WEIGHT [1, 2] [3, 4]).length = 2
    ∧ (combineEmbeddings SUBJECT_WEIGHT CONTENT_WEIGHT [1, 2] [3, 4]).getD 0 0
        = SUBJECT_WEIGHT * 1 + CONTENT_WEIGHT * 3 := by
  have t := C6_combined_embedding SUBJECT_WEIGHT CONTENT_WEIGHT [1, 2] [3, 4]
    weights_sum_one (by decide)
  refine ⟨t.1, ?_⟩
  have h0 := t.2 0 (by decide)
  simpa using h0

/-! ## Lemmas about the readiness poll -/

theorem pollLoop_never_ready (ready : Nat → Bool) (hnever : ∀ n, ready n = false) :
    ∀ (remaining t : Nat), pollLoop ready t remaining = .timedOut := by
  intro remaining
  induction remaining with
  | zero => intro t; rfl
  | succ r ih => intro t; simp [pollLoop, hnever t, ih t.succ]

theorem pollLoop_ready (ready : Nat → Bool) :
    ∀ (remaining t n : Nat), t ≤ n → n < t + remaining → ready n = true →
      pollLoop ready t remaining = .success := by
  intro remaining
  induction remaining with
  | zero => intro t n h1 h2 _; exact absurd h2 (by omega)
  | succ r ih =>
    intro t n h1 h2 hn
    simp only [pollLoop]
    by_cases hrt : ready t
    · simp [hrt]
    · simp only [hrt, if_false]
      rcases Nat.eq_or_lt_of_le h1 with rfl | hlt
      · rw [hn] at hrt; exact absurd rfl hrt
      · exact ih (t + 1) n hlt (by omega) hn

/-- C7: the readiness wait of index creation terminates by construction; if
no poll within the 60-second timeout reports ready it ends in the timeout
error, and if some poll before the timeout reports ready it succeeds. -/
theorem C7_readiness_poll (ready : Nat → Bool) :
    ((∀ n, ready n = false) → wait_for_index_ready ready = .timedOut)
    ∧ (∀ n, n < 60 → ready n = true → wait_for_index_ready ready = .success) := by
  constructor
  · intro hnever
    exact pollLoop_never_ready ready hnever 60 0
  · intro n hn hr
    exact pollLoop_ready ready 60 0 n (Nat.zero_le n) (by omega) hr

/-- Witness for C7: a never-ready oracle times out, an oracle ready at the
third poll succeeds. -/
theorem C7_witness :
    wait_for_index_ready neverReady = .timedOut
    ∧ wait_for_index_ready readyAt2 = .success :=
  ⟨(C7_readiness_poll neverReady).1 (fun _ => rfl),
   (C7_readiness_poll readyAt2).2 2 (by omega) (by decide)⟩

/-! ## The bounded retry of store_email -/

/-- C8: store_email attempts the upsert at most three times with the fixed
two-second delay between consecutive attempts; the first successful attempt
ends the loop immediately (attempts 0 to j were made, only the last
succeeded), and when all three attempts fail the error of the final attempt
propagates. -/
theorem C8_store_email_retry (outcome : Nat → Except String Unit) :
    (store_email_run outcome).1.length ≤ 3
    ∧ (store_email_run outcome).2.1
        = RETRY_DELAY * ((store_email_run outcome).1.length - 1)
    ∧ (∀ j, j < 3 → outcome j = .ok () → (∀ i, i < j → outcome i ≠ .ok ()) →
        store_email_run outcome = (List.range (j + 1), RETRY_DELAY * j, .ok ()))
    ∧ (∀ e0 e1 e2, outcome 0 = .error e0 → outcome 1 = .error e1 →
        outcome 2 = .error e2 →
        store_email_run outcome = ([0, 1, 2], RETRY_DELAY * 2, .error e2)) := by
  cases h0 : outcome 0 with
  | ok u0 =>
    cases u0
    refine ⟨?_, ?_, ?_, ?_⟩
    · simp [store_email_run, retryLoop, h0]
    · simp [store_email_run, retryLoop, h0]
    · intro j hj hok hprev
      have hj0 : j = 0 := by
        by_contra hne
        exact hprev 0 (by omega) h0
      subst hj0
      simp [store_email_run, retryLoop, h0, List.range_succ]
    · intro e0 e1 e2 he0
      cases he0
  | error e0 =>
    cases h1 : outcome 1 with
    | ok u1 =>
      cases u1
      refine ⟨?_, ?_, ?_, ?_⟩
      · simp [store_email_run, retryLoop, h0, h1]
      · simp [store_email_run, retryLoop, h0, h1, RETRY_DELAY]
      · intro j hj hok hprev
        have hj1 : j = 1 := by
          rcases (by omega : j = 0 ∨ j = 1 ∨ j = 2) with rfl | rfl | rfl
          · rw [h0] at hok; cases hok
          · rfl
          · exact absurd h1 (hprev 1 (by omega))
        subst hj1
        simp [store_email_run, retryLoop, h0, h1, List.range_succ, RETRY_DELAY]
      · intro f0 f1 f2 _ hf1
        cases hf1
    | error e1 =>
      cases h2 : outcome 2 with
      | ok u2 =>
        cases u2
        refine ⟨?_, ?_, ?_, ?_⟩
        · simp [store_email_run, retryLoop, h0, h1, h2]
        · simp [store_email_run, retryLoop, h0, h1, h2, RETRY_DELAY]
        · intro j hj hok hprev
          have hj2 : j = 2 := by
            rcases (by omega : j = 0 ∨ j = 1 ∨ j = 2) with rfl | rfl | rfl
            · rw [h0] at hok; cases hok
            · rw [h1] at hok; cases hok
            · rfl
          subst hj2
          simp [store_email_run, retryLoop, h0, h1, h2, List.range_succ, RETRY_DELAY]
        · intro f0 f1 f2 _ _ hf2
          cases hf2
      | error e2 =>
        refine ⟨?_, ?_, ?_, ?_⟩
        · simp [store_email_run, retryLoop, h0, h1, h2]
        · simp [store_email_run, retryLoop, h0, h1, h2, RETRY_DELAY]
        · intro j hj hok hprev
          rcases (by omega : j = 0 ∨ j = 1 ∨ j = 2) with rfl | rfl | rfl
          · rw [h0] at hok; cases hok
          · rw [h1] at hok; cases hok
          · rw [h2] at hok; cases hok
        · intro f0 f1 f2 _ _ hf2
          cases hf2
          simp [store_email_run, retryLoop, h0, h1, h2, RETRY_DELAY]

/-- Witness for C8: with a first attempt that fails and a second that
succeeds, exactly attempts 0 and 1 run, one delay is slept, and the result is
the early success. -/
theorem C8_witness :
    store_email_run flakyOutcome = ([0, 1], RETRY_DELAY * 1, .ok ())
    ∧ (store_email_run flakyOutcome).1.length ≤ 3 := by
  have t := C8_store_email_retry flakyOutcome
  refine ⟨t.2.2.1 1 (by omega) (by simp [flakyOutcome]) ?_, t.1⟩
  intro i hi
  interval_cases i
  simp [flakyOutcome]

/-! ## Lemmas about the specialized store -/

theorem namespaceRecords_upsert_ne (s : IndexState) (ns ns2 : String)
    (v : UpsertVector) (h : ¬ ns = ns2) :
    namespaceRecords (upsert s ns v) ns2 = namespaceRecords s ns2 := by
  unfold namespaceRecords upsert
  simp only
  rw [List.filter_cons_of_neg, List.filter_filter]
  · congr 1
    apply List.filter_congr
    intro a _
    by_cases ha : a.1 = ns2
    · have h1 : (a.1 == ns2) = true := by simpa using ha
      have h2 : (a.1 == ns) = false := by
        simp only [beq_eq_false_iff_ne, ne_eq]
        intro heq
        exact h (heq.symm.trans ha)
      simp [h1, h2]
    · have h1 : (a.1 == ns2) = false := by simpa using ha
      simp [h1]
  · simp only [beq_iff_eq]
    intro heq
    exact h heq

theorem queryIndex_congr (score : List Rat → List Rat → Rat) (s1 s2 : IndexState)
    (ns : String) (vec : List Rat) (k : Nat)
    (h : namespaceRecords s1 ns = namespaceRecords s2 ns) :
    queryIndex score s1 ns vec k = queryIndex score s2 ns vec k := by
  unfold queryIndex
  rw [h]

theorem queryIndex_subset (score : List Rat → List Rat → Rat) (s : IndexState)
    (ns : String) (vec : List Rat) (k : Nat) :
    queryIndex score s ns vec k ⊆ namespaceRecords s ns := by
  intro x hx
  have hx2 := List.take_subset _ _ hx
  exact (List.perm_insertionSort _ (namespaceRecords s ns)).mem_iff.mp hx2

/-- C4: storing a job never changes what a candidate query can return (and
conversely): the stores and the matching queries address distinct namespaces
of the specialized index, so the result pools stay disjoint.  Every queried
record is drawn from the opposite namespace of the state before the store. -/
theorem C4_namespace_isolation (embed : String → List Rat)
    (score : List Rat → List Rat → Rat) (s : IndexState) (j : JobData)
    (c : CandidateData) (q : String) (k : Nat) :
    find_matching_candidates embed score (store_job embed s j) q k
      = find_matching_candidates embed score s q k
    ∧ find_matching_jobs embed score (store_candidate embed s c) q k
      = find_matching_jobs embed score s q k
    ∧ queryIndex score (store_job embed s j) "candidates" (embed q) k
        ⊆ namespaceRecords s "candidates"
    ∧ queryIndex score (store_candidate embed s c) "jobs" (embed q) k
        ⊆ namespaceRecords s "jobs" := by
  have hjob : namespaceRecords (store_job embed s j) "candidates"
      = namespaceRecords s "candidates" :=
    namespaceRecords_upsert_ne s "jobs" "candidates" _ (by decide)
  have hcand : namespaceRecords (store_candidate embed s c) "jobs"
      = namespaceRecords s "jobs" :=
    namespaceRecords_upsert_ne s "candidates" "jobs" _ (by decide)
  refine ⟨?_, ?_, ?_, ?_⟩
  · unfold find_matching_candidates
    rw [queryIndex_congr score _ s "candidates" (embed q) k hjob]
  · unfold find_matching_jobs
    rw [queryIndex_congr score _ s "jobs" (embed q) k hcand]
  · intro x hx
    exact hjob ▸ queryIndex_subset score (store_job embed s j) "candidates" (embed q) k hx
  · intro x hx
    exact hcand ▸ queryIndex_subset score (store_candidate embed s c) "jobs" (embed q) k hx

/-- Witness for C4 at a concrete store holding one candidate record: the
candidate query after storing a job equals the query before it. -/
theorem C4_witness :
    find_matching_candidates zeroEmbed (fun _ _ => 0)
        (store_job zeroEmbed (store_candidate zeroEmbed emptyIndex demoCandidate) demoJob)
        "Go developer" 3
      = find_matching_candidates zeroEmbed (fun _ _ => 0)
          (store_candidate zeroEmbed emptyIndex demoCandidate) "Go developer" 3 :=
  (C4_namespace_isolation zeroEmbed (fun _ _ => 0)
    (store_candidate zeroEmbed emptyIndex demoCandidate) demoJob demoCandidate
    "Go developer" 3).1

/-- C5 counterexample: the claim says store_job upserts into the
opposite-typed namespace, which for a job record is the candidates
namespace; the actual write goes to the jobs namespace (and conversely for
store_candidate), so the claim as stated is false. -/
theorem C5_counterexample :
    (storeJobRequest zeroEmbed demoJob).1 = "jobs"
    ∧ ¬ (storeJobRequest zeroEmbed demoJob).1 = "candidates"
    ∧ (storeCandidateRequest zeroEmbed demoCandidate).1 = "candidates"
    ∧ ¬ (storeCandidateRequest zeroEmbed demoCandidate).1 = "jobs" :=
  ⟨rfl, by decide, rfl, by decide⟩

/-- C5 amended: store_job upserts into the same-typed jobs namespace under
the type-prefixed id job_ followed by the record id, with type job in the
metadata; store_candidate upserts into the candidates namespace under
candidate_ followed by the record id, with type candidate. -/
theorem C5_store_requests (embed : String → List Rat) (s : IndexState)
    (j : JobData) (c : CandidateData) :
    (storeJobRequest embed j).1 = "jobs"
    ∧ (storeJobRequest embed j).2.id = "job_" ++ j.id
    ∧ metaField (storeJobRequest embed j).2.metadata "type" = "job"
    ∧ store_job embed s j = upsert s "jobs" (storeJobRequest embed j).2
    ∧ (storeCandidateRequest embed c).1 = "candidates"
    ∧ (storeCandidateRequest embed c).2.id = "candidate_" ++ c.id
    ∧ metaField (storeCandidateRequest embed c).2.metadata "type" = "candidate"
    ∧ store_candidate embed s c = upsert s "candidates" (storeCandidateRequest embed c).2 :=
  ⟨rfl, rfl, rfl, rfl, rfl, rfl, rfl, rfl⟩

/-! ## Lemmas about the orchestrator -/

theorem handleOther_fst (env : BotEnv) (s : IndexState) (e : EmailData) :
    (handleOther env s e).1 = s := by
  unfold handleOther
  cases env.embed e.subject with
  | error err => rfl
  | ok sv =>
    cases env.embed e.content with
    | error err => rfl
    | ok cv => rfl

theorem dispatchCategory_fst_OTHER (env : BotEnv) (s : IndexState) (e : EmailData) :
    (dispatchCategory env s e .OTHER).1 = s := by
  have hfst := handleOther_fst env s e
  unfold dispatchCategory
  rcases hh : handleOther env s e with ⟨s2, r⟩
  rw [hh] at hfst
  cases r with
  | error err => exact hfst
  | ok reply => exact hfst

theorem dispatchCategory_category (env : BotEnv) (s : IndexState) (e : EmailData) :
    ∀ (cat : EmailCategory) (rep : ProcessReport),
      (dispatchCategory env s e cat).2 = .ok rep → rep.category = cat := by
  intro cat rep hrep
  cases cat with
  | JOB => cases hrep; rfl
  | CANDIDATE => cases hrep; rfl
  | OTHER =>
    unfold dispatchCategory at hrep
    rcases hh : handleOther env s e with ⟨s2, r⟩
    rw [hh] at hrep
    cases r with
    | error err => cases hrep
    | ok reply => cases hrep; rfl

theorem processSingleEmail_ok_or_fst (env : BotEnv) (s : IndexState) (e : EmailData) :
    (∃ rep, (processSingleEmail env s e).2 = .ok rep)
    ∨ (processSingleEmail env s e).1 = s := by
  unfold processSingleEmail
  cases h1 : env.embed e.subject with
  | error err => exact Or.inr rfl
  | ok sv =>
    dsimp only
    cases h2 : env.embed e.content with
    | error err => exact Or.inr rfl
    | ok cv =>
      dsimp only
      cases h3 : (store_email_run (env.upsertAttempt e
          (combineEmbeddings SUBJECT_WEIGHT CONTENT_WEIGHT sv cv))).2.2 with
      | error msg => exact Or.inr rfl
      | ok u =>
        dsimp only
        cases h4 : classifyStep env e with
        | error err => exact Or.inr rfl
        | ok cr =>
          dsimp only
          rcases cr with ⟨raw, conf⟩
          cases hcat : (if conf < CONFIDENCE_THRESHOLD then EmailCategory.OTHER else raw) with
          | JOB => exact Or.inl ⟨_, rfl⟩
          | CANDIDATE => exact Or.inl ⟨_, rfl⟩
          | OTHER =>
            have hfst := handleOther_fst env s e
            unfold dispatchCategory
            rcases hh : handleOther env s e with ⟨s2, r⟩
            rw [hh] at hfst
            cases r with
            | error err => exact Or.inr hfst
            | ok reply => exact Or.inl ⟨_, rfl⟩

theorem processSingleEmail_error_fst (env : BotEnv) (s : IndexState) (e : EmailData)
    (err : BotError) (hfail : (processSingleEmail env s e).2 = .error err) :
    (processSingleEmail env s e).1 = s := by
  rcases processSingleEmail_ok_or_fst env s e with ⟨rep, hrep⟩ | hfst
  · rw [hrep] at hfail; cases hfail
  · exact hfst

theorem processSingleEmail_dispatch_or_error (env : BotEnv) (s : IndexState)
    (e : EmailData) (raw : EmailCategory) (conf : Rat)
    (hclass : classifyStep env e = .ok (raw, conf)) :
    processSingleEmail env s e
        = dispatchCategory env s e (if conf < CONFIDENCE_THRESHOLD then .OTHER else raw)
    ∨ ((processSingleEmail env s e).1 = s
        ∧ ∃ err, (processSingleEmail env s e).2 = .error err) := by
  unfold processSingleEmail
  cases h1 : env.embed e.subject with
  | error err => exact Or.inr ⟨rfl, _, rfl⟩
  | ok sv =>
    dsimp only
    cases h2 : env.embed e.content with
    | error err => exact Or.inr ⟨rfl, _, rfl⟩
    | ok cv =>
      dsimp only
      cases h3 : (store_email_run (env.upsertAttempt e
          (combineEmbeddings SUBJECT_WEIGHT CONTENT_WEIGHT sv cv))).2.2 with
      | error msg => exact Or.inr ⟨rfl, _, rfl⟩
      | ok u =>
        dsimp only
        rw [hclass]
        exact Or.inl rfl

theorem processNewEmails_length (env : BotEnv) :
    ∀ (emails : List EmailData) (s : IndexState),
      (processNewEmails env s emails).2.length = emails.length := by
  intro emails
  induction emails with
  | nil => intro s; rfl
  | cons e rest ih => intro s; simp [processNewEmails, ih]

theorem processSingleEmail_parse_error (env : BotEnv) (s : IndexState) (e : EmailData)
    (sv cv : List Rat) (resp : String) (ce : ClassifyError)
    (hse : env.embed e.subject = .ok sv)
    (hce : env.embed e.content = .ok cv)
    (hstore : (store_email_run (env.upsertAttempt e
        (combineEmbeddings SUBJECT_WEIGHT CONTENT_WEIGHT sv cv))).2.2 = .ok ())
    (hresp : env.classifyResp e = .ok resp)
    (hparse : classify_email_parse resp = .error ce) :
    processSingleEmail env s e = (s, .error (.parse ce)) := by
  have hclass : classifyStep env e = .error (.parse ce) := by
    unfold classifyStep
    rw [hresp]
    dsimp only
    rw [hparse]
  unfold processSingleEmail
  rw [hse]
  dsimp only
  rw [hce]
  dsimp only
  rw [hstore]
  dsimp only
  rw [hclass]

/-- C2: with a parsed raw classification (raw, conf) in hand, confidence below
0.7 forces the effective category OTHER, so the specialized store is left
untouched (no job or candidate record is written) and any produced report
carries category OTHER; confidence at or above 0.7 leaves the raw category
unchanged.  The same gate of initialize_bot.process_email_content stores
nothing below 0.7. -/
theorem C2_confidence_gate (env : BotEnv) (s : IndexState) (e : EmailData)
    (raw : EmailCategory) (conf : Rat) (cat : String)
    (hclass : classifyStep env e = .ok (raw, conf)) :
    (conf < CONFIDENCE_THRESHOLD →
      (processSingleEmail env s e).1 = s
      ∧ (∀ rep, (processSingleEmail env s e).2 = .ok rep → rep.category = .OTHER)
      ∧ process_email_content_stores cat conf = (false, false))
    ∧ (¬ conf < CONFIDENCE_THRESHOLD →
      ∀ rep, (processSingleEmail env s e).2 = .ok rep → rep.category = raw) := by
  constructor
  · intro hlt
    rcases processSingleEmail_dispatch_or_error env s e raw conf hclass with hdisp | ⟨hfst, err, herr⟩
    · rw [if_pos hlt] at hdisp
      refine ⟨?_, ?_, ?_⟩
      · rw [hdisp]
        exact dispatchCategory_fst_OTHER env s e
      · intro rep hrep
        rw [hdisp] at hrep
        exact dispatchCategory_category env s e .OTHER rep hrep
      · unfold process_email_content_stores
        rw [if_pos hlt]
    · refine ⟨hfst, ?_, ?_⟩
      · intro rep hrep
        rw [herr] at hrep
        cases hrep
      · unfold process_email_content_stores
        rw [if_pos hlt]
  · intro hge
    rcases processSingleEmail_dispatch_or_error env s e raw conf hclass with hdisp | ⟨hfst, err, herr⟩
    · rw [if_neg hge] at hdisp
      intro rep hrep
      rw [hdisp] at hrep
      exact dispatchCategory_category env s e raw rep hrep
    · intro rep hrep
      rw [herr] at hrep
      cases hrep

/-- Witness for C2: a raw classification job with confidence 0.5 leaves the
specialized store untouched and stores nothing in the initializer either. -/
theorem C2_witness :
    (processSingleEmail gateEnv emptyIndex demoEmail).1 = emptyIndex
    ∧ process_email_content_stores "JOB" (mkRat 1 2) = (false, false) := by
  have t := C2_confidence_gate gateEnv emptyIndex demoEmail .JOB (mkRat 1 2) "JOB" (by rfl)
  have hlt : mkRat 1 2 < CONFIDENCE_THRESHOLD := by decide
  exact ⟨(t.1 hlt).1, (t.1 hlt).2.2⟩

/-- C3 counterexample: when the classification oracle answers something that
does not parse as category:confidence, the raised error propagates out of the
single-message processing and the batch loop skips the message, so no reply
is generated or sent for it; the continuation claimed, a low-confidence
OTHER reply, is false on the code. -/
theorem C3_counterexample :
    classify_email_parse "no delimiter here" = .error .unpackError
    ∧ (processSingleEmail unparseableEnv emptyIndex demoEmail).2
        = .error (.parse .unpackError)
    ∧ (processNewEmails unparseableEnv emptyIndex [demoEmail]).2 = [none] :=
  ⟨rfl, rfl, rfl⟩

/-- C3 amended: an unparseable oracle response makes classification raise
(one of the distinct ValueError cases of parsing), the per-message processing
of that message fails without generating or sending any reply, and the batch
loop catches the failure, records the message as skipped and continues with
the remaining messages against an unchanged store. -/
theorem C3_parse_failure_skips (env : BotEnv) (s : IndexState) (e : EmailData)
    (rest : List EmailData) (sv cv : List Rat) (resp : String) (ce : ClassifyError)
    (hse : env.embed e.subject = .ok sv)
    (hce : env.embed e.content = .ok cv)
    (hstore : (store_email_run (env.upsertAttempt e
        (combineEmbeddings SUBJECT_WEIGHT CONTENT_WEIGHT sv cv))).2.2 = .ok ())
    (hresp : env.classifyResp e = .ok resp)
    (hparse : classify_email_parse resp = .error ce) :
    processSingleEmail env s e = (s, .error (.parse ce))
    ∧ processNewEmails env s (e :: rest)
        = ((processNewEmails env s rest).1, none :: (processNewEmails env s rest).2) := by
  have hfail := processSingleEmail_parse_error env s e sv cv resp ce hse hce hstore hresp hparse
  refine ⟨hfail, ?_⟩
  simp only [processNewEmails, hfail, Except.toOption]

/-- Witness for the amended C3 statement at a concrete unparseable response. -/
theorem C3_amended_witness :
    processSingleEmail unparseableEnv emptyIndex demoEmail
        = (emptyIndex, .error (.parse .unpackError))
    ∧ processNewEmails unparseableEnv emptyIndex [demoEmail, goodEmail]
        = ((processNewEmails unparseableEnv emptyIndex [goodEmail]).1,
            none :: (processNewEmails unparseableEnv emptyIndex [goodEmail]).2) :=
  C3_parse_failure_skips unparseableEnv emptyIndex demoEmail [goodEmail] [1, 0] [1, 0]
    "no delimiter here" .unpackError rfl rfl rfl rfl rfl

/-- C9: the batch loop processes every fetched message (one result entry per
message) and a message whose processing fails at any step is skipped while
the rest of the batch is still processed from the unchanged store state. -/
theorem C9_batch_isolation (env : BotEnv) (s : IndexState) (emails : List EmailData)
    (e : EmailData) (rest : List EmailData) (err : BotError)
    (hfail : (processSingleEmail env s e).2 = .error err) :
    (processNewEmails env s emails).2.length = emails.length
    ∧ processNewEmails env s (e :: rest)
        = ((processNewEmails env s rest).1, none :: (processNewEmails env s rest).2) := by
  refine ⟨processNewEmails_length env emails s, ?_⟩
  have hfst := processSingleEmail_error_fst env s e err hfail
  simp only [processNewEmails, hfst, hfail, Except.toOption]

/-- Witness for C9: a batch of two messages whose first fails is fully
traversed; the first entry is a skip and the second message is still
processed. -/
theorem C9_witness :
    (processNewEmails unparseableEnv emptyIndex [demoEmail, goodEmail]).2.length = 2
    ∧ processNewEmails unparseableEnv emptyIndex [demoEmail, goodEmail]
        = ((processNewEmails unparseableEnv emptyIndex [goodEmail]).1,
            none :: (processNewEmails unparseableEnv emptyIndex [goodEmail]).2) :=
  C9_batch_isolation unparseableEnv emptyIndex [demoEmail, goodEmail] demoEmail
    [goodEmail] (.parse .unpackError) rfl

/-- C10: send_reply swallows an SMTP failure and returns normally (it is a
total function whose Boolean result records the failed delivery), so when
every other step succeeds and every SMTP send fails the orchestrator still
finishes the message with a success report whose delivered flag is false. -/
theorem C10_send_failure_swallowed (env : BotEnv) (s : IndexState) (e : EmailData)
    (sv cv : List Rat) (raw : EmailCategory) (conf : Rat) (msg : String)
    (hse : env.embed e.subject = .ok sv)
    (hce : env.embed e.content = .ok cv)
    (hstore : (store_email_run (env.upsertAttempt e
        (combineEmbeddings SUBJECT_WEIGHT CONTENT_WEIGHT sv cv))).2.2 = .ok ())
    (hclass : classifyStep env e = .ok (raw, conf))
    (hanalyze : ∀ sim, ∃ r, env.analyzeReply e sim = .ok r)
    (hsmtp : ∀ r, env.smtpSend e r = .error msg) :
    send_reply (Except.error msg) = false
    ∧ (processSingleEmail env s e).2.isOk = true
    ∧ (∀ rep, (processSingleEmail env s e).2 = .ok rep → rep.delivered = false) := by
  have hdisp : processSingleEmail env s e
      = dispatchCategory env s e (if conf < CONFIDENCE_THRESHOLD then .OTHER else raw) := by
    unfold processSingleEmail
    rw [hse]
    dsimp only
    rw [hce]
    dsimp only
    rw [hstore]
    dsimp only
    rw [hclass]
  refine ⟨rfl, ?_, ?_⟩
  · rw [hdisp]
    cases hcat : (if conf < CONFIDENCE_THRESHOLD then EmailCategory.OTHER else raw) with
    | JOB =>
      unfold dispatchCategory
      rfl
    | CANDIDATE =>
      unfold dispatchCategory
      rfl
    | OTHER =>
      unfold dispatchCategory
      rcases hh : handleOther env s e with ⟨s2, r⟩
      unfold handleOther at hh
      rw [hse] at hh
      dsimp only at hh
      rw [hce] at hh
      dsimp only at hh
      rcases hanalyze (weighted_similarity_search env.contentHash
        (env.queryMain (combineEmbeddings SUBJECT_WEIGHT CONTENT_WEIGHT sv cv))) with ⟨rp, hrp⟩
      rw [hrp] at hh
      cases hh
      rfl
  · intro rep hrep
    rw [hdisp] at hrep
    cases hcat : (if conf < CONFIDENCE_THRESHOLD then EmailCategory.OTHER else raw) with
    | JOB =>
      rw [hcat] at hrep
      unfold dispatchCategory at hrep
      dsimp only at hrep
      rw [hsmtp] at hrep
      cases hrep
      rfl
    | CANDIDATE =>
      rw [hcat] at hrep
      unfold dispatchCategory at hrep
      dsimp only at hrep
      rw [hsmtp] at hrep
      cases hrep
      rfl
    | OTHER =>
      rw [hcat] at hrep
      unfold dispatchCategory at hrep
      rcases hh : handleOther env s e with ⟨s2, r⟩
      rw [hh] at hrep
      cases r with
      | error err =>
        dsimp only at hrep
        cases hrep
      | ok reply =>
        dsimp only at hrep
        rw [hsmtp] at hrep
        cases hrep
        rfl

/-- Witness for C10: with every SMTP send failing and everything else
succeeding, the message is reported processed with delivered false. -/
theorem C10_witness :
    send_reply (Except.error "smtp down") = false
    ∧ (processSingleEmail smtpFailEnv emptyIndex demoEmail).2.isOk = true := by
  have t := C10_send_failure_swallowed smtpFailEnv emptyIndex demoEmail [1, 0] [1, 0]
    .OTHER (mkRat 9 10) "smtp down" rfl rfl rfl (by rfl)
    (fun _ => ⟨"a reply", rfl⟩) (fun _ => rfl)
  exact ⟨t.1, t.2.1⟩

end EBot
